import Mathlib

/-!
Verification of the DevOpsGPT command-interpretation core.

This file gives a shallow embedding, in Lean 4, of the parts of the
repository that the specification's claims are about:

* `CommandParser.parse` from `devops_gpt_core.py`, including a faithful
  backtracking model of the Python regular-expression patterns it uses;
* the `TroubleshootingPlugin` and `DevOpsGPT.process_command` pipeline from
  `devops_gpt_core.py`;
* `DevOpsGPT.execute_command` / `_parse_command` from
  `devops_gpt/core/agent.py` (the model response is `eval`-uated there, so
  responses are modelled as Python expressions whose evaluation may perform
  side effects);
* the Ollama provider with OpenAI fallback from
  `devops_gpt/llm_providers/ollama_provider.py`, instrumented with a count
  of secondary-provider invocations;
* the `FallbackLLMProvider` composite from `devops_gpt/llm_providers/__init__.py`;
* the `StateManager` from `devops_gpt_state.py`: lock discipline, state
  loading/recovery, saving and backup pruning.

Machine reals (Python floats such as `0.8`) are modelled as rationals;
filesystem creation times are modelled as strictly increasing naturals.
-/

set_option autoImplicit false

namespace DevOpsGPT

/-! ## Python regular expressions, restricted to the shapes used by
`CommandParser.intent_patterns`.

Each pattern in the source is a sequence of literal characters, greedy `.*`
gaps, one greedy named group `(?P<name>\w+)`, or one named group of literal
alternatives such as `(?P<resource_type>ec2|vm|instance)`.  The matcher
below implements Python `re.search` semantics for exactly these shapes:
leftmost starting position wins, and within a position backtracking prefers
the longest consumption for greedy pieces and the leftmost alternative. -/

inductive RTok where
  | lit (c : Char)
  | star
  | wordGroup (name : String)
  | altGroup (name : String) (alts : List (List Char))
  deriving Repr, DecidableEq

/-- Python `\w` on ASCII input: letters, digits and underscore. -/
def isWordChar (c : Char) : Bool :=
  c.isAlphanum || c = '_'

/-- Backtracking matcher for a token sequence against a suffix of the input,
returning the named captures of the first (preference-ordered) match.  A
match need not consume the whole input, mirroring `re.search`. -/
def matchToks : List RTok → List Char → Option (List (String × String))
  | [], _ => some []
  | RTok.lit _ :: _, [] => none
  | RTok.lit c :: ts, x :: s => if x = c then matchToks ts s else none
  | RTok.star :: ts, s =>
      ((List.range (s.length + 1)).reverse).findSome? fun k => matchToks ts (s.drop k)
  | RTok.wordGroup name :: ts, s =>
      let m := (s.takeWhile isWordChar).length
      (((List.range m).reverse).map (· + 1)).findSome? fun k =>
        (matchToks ts (s.drop k)).map fun caps => (name, String.mk (s.take k)) :: caps
  | RTok.altGroup name alts :: ts, s =>
      alts.findSome? fun a =>
        if a.isPrefixOf s then
          (matchToks ts (s.drop a.length)).map fun caps => (name, String.mk a) :: caps
        else none

/-- `re.search`: try each starting position from the left. -/
def reSearch (toks : List RTok) (s : List Char) : Option (List (String × String)) :=
  (List.range (s.length + 1)).findSome? fun i => matchToks toks (s.drop i)

/-! ## Data model from `devops_gpt_core.py` -/

inductive TaskCategory where
  | TROUBLESHOOTING
  | CICD
  | CLOUD_PROVISIONING
  | COST_USAGE
  | SECURITY_COMPLIANCE
  | MONITORING_ALERTS
  deriving Repr, DecidableEq

inductive ExecutionMode where
  | DRY_RUN
  | CONFIRM
  | EXECUTE
  deriving Repr, DecidableEq

/-- `Command` dataclass.  `raw_input` holds the stripped, lower-cased text,
because `parse` reassigns `user_input` before constructing the command. -/
structure Command where
  intent : String
  category : TaskCategory
  parameters : List (String × String)
  raw_input : List Char
  confidence : ℚ
  dry_run : Bool := true
  deriving Repr, DecidableEq

/-- `ExecutionResult` dataclass. -/
structure ExecutionResult where
  success : Bool
  output : String
  error : Option String := none
  execution_time : ℚ := 0
  command_executed : Option String := none
  metadata : Option (List (String × String)) := none
  deriving Repr, DecidableEq

/-! ## `CommandParser` -/

def litToks (s : String) : List RTok := s.toList.map RTok.lit

/-- `r"show.*logs.*from.*(?P<service>\w+)"` -/
def patShowLogs : List RTok :=
  litToks "show" ++ [RTok.star] ++ litToks "logs" ++ [RTok.star] ++
  litToks "from" ++ [RTok.star, RTok.wordGroup "service"]

/-- `r"restart.*(?P<service>\w+)"` -/
def patRestart : List RTok :=
  litToks "restart" ++ [RTok.star, RTok.wordGroup "service"]

/-- `r"health.*check.*(?P<service>\w+)"` -/
def patHealthCheck : List RTok :=
  litToks "health" ++ [RTok.star] ++ litToks "check" ++ [RTok.star, RTok.wordGroup "service"]

/-- `r"trigger.*(?P<pipeline>\w+).*pipeline"` -/
def patTrigger : List RTok :=
  litToks "trigger" ++ [RTok.star, RTok.wordGroup "pipeline", RTok.star] ++ litToks "pipeline"

/-- `r"rollback.*(?P<service>\w+)"` -/
def patRollback : List RTok :=
  litToks "rollback" ++ [RTok.star, RTok.wordGroup "service"]

/-- `r"create.*(?P<resource_type>ec2|vm|instance)"` -/
def patCreate : List RTok :=
  litToks "create" ++
  [RTok.star, RTok.altGroup "resource_type" ["ec2".toList, "vm".toList, "instance".toList]]

/-- `r"show.*cost.*(?P<service>\w+)"` -/
def patShowCost : List RTok :=
  litToks "show" ++ [RTok.star] ++ litToks "cost" ++ [RTok.star, RTok.wordGroup "service"]

/-- `r"check.*(?P<security_type>ports|cve|vulnerabilities)"` -/
def patCheckSecurity : List RTok :=
  litToks "check" ++
  [RTok.star,
   RTok.altGroup "security_type" ["ports".toList, "cve".toList, "vulnerabilities".toList]]

/-- `CommandParser.intent_patterns`, in insertion (= iteration) order. -/
def intent_patterns : List (List RTok × String × TaskCategory) :=
  [ (patShowLogs, "show_logs", TaskCategory.TROUBLESHOOTING),
    (patRestart, "restart_service", TaskCategory.TROUBLESHOOTING),
    (patHealthCheck, "health_check", TaskCategory.TROUBLESHOOTING),
    (patTrigger, "trigger_pipeline", TaskCategory.CICD),
    (patRollback, "rollback_deployment", TaskCategory.CICD),
    (patCreate, "create_instance", TaskCategory.CLOUD_PROVISIONING),
    (patShowCost, "analyze_cost", TaskCategory.COST_USAGE),
    (patCheckSecurity, "security_scan", TaskCategory.SECURITY_COMPLIANCE) ]

/-- Python `str.strip()`. -/
def pyStrip (s : List Char) : List Char :=
  ((s.dropWhile Char.isWhitespace).reverse.dropWhile Char.isWhitespace).reverse

/-- Python `str.lower()` on ASCII input. -/
def pyLower (s : List Char) : List Char :=
  s.map Char.toLower

/-- `CommandParser.parse`: first matching pattern wins with confidence 0.8;
otherwise the `"unknown"` fallback command with confidence 0.1. -/
def parse (input : List Char) : Command :=
  let u := pyLower (pyStrip input)
  match intent_patterns.findSome? (fun p => (reSearch p.1 u).map fun caps => (p.2, caps)) with
  | some ((i, cat), caps) =>
      { intent := i, category := cat, parameters := caps, raw_input := u,
        confidence := (8 : ℚ) / 10, dry_run := true }
  | none =>
      { intent := "unknown", category := TaskCategory.TROUBLESHOOTING, parameters := [],
        raw_input := u, confidence := (1 : ℚ) / 10 }

/-! ## `TroubleshootingPlugin` and the `DevOpsGPT.process_command` pipeline
(`devops_gpt_core.py`).

Shell execution (`asyncio.create_subprocess_shell`) is external behaviour,
modelled as a function from the command string to an outcome: either the
process completed with a return code and output streams, or creating or
awaiting it raised an exception. -/

inductive ShellOutcome where
  | completed (returncode : Int) (stdout : String) (stderr : String)
  | raised (msg : String)
  deriving Repr, DecidableEq

/-- `TroubleshootingPlugin._execute_shell_command`: runs the shell command
and converts the outcome, catching any exception into a failed result. -/
def execute_shell_command (shell : String → ShellOutcome) (cmd : String) : ExecutionResult :=
  match shell cmd with
  | ShellOutcome.completed rc out err =>
      { success := rc = 0,
        output := if out = "" then "" else out,
        error := if err = "" then none else some err,
        command_executed := some cmd }
  | ShellOutcome.raised m =>
      { success := false, output := "", error := some m, command_executed := some cmd }

/-- `dict.get('service', 'unknown')` on the command's parameters. -/
def serviceParam (command : Command) : String :=
  ((command.parameters.lookup "service").getD "unknown")

/-- `TroubleshootingPlugin._show_logs`. -/
def trouble_show_logs (shell : String → ShellOutcome) (command : Command) : ExecutionResult :=
  let cmd := "kubectl logs -l app=" ++ serviceParam command ++ " --tail=50"
  if command.dry_run then
    { success := true, output := "[DRY RUN] Would execute: " ++ cmd,
      command_executed := some cmd }
  else
    execute_shell_command shell cmd

/-- `TroubleshootingPlugin._restart_service`. -/
def trouble_restart_service (shell : String → ShellOutcome) (command : Command) : ExecutionResult :=
  let cmd := "kubectl rollout restart deployment/" ++ serviceParam command
  if command.dry_run then
    { success := true, output := "[DRY RUN] Would execute: " ++ cmd,
      command_executed := some cmd }
  else
    execute_shell_command shell cmd

/-- `TroubleshootingPlugin._health_check`. -/
def trouble_health_check (shell : String → ShellOutcome) (command : Command) : ExecutionResult :=
  let cmd := "kubectl get pods -l app=" ++ serviceParam command
  if command.dry_run then
    { success := true, output := "[DRY RUN] Would execute: " ++ cmd,
      command_executed := some cmd }
  else
    execute_shell_command shell cmd

/-- `TroubleshootingPlugin.can_handle`. -/
def trouble_can_handle (command : Command) : Bool :=
  command.category = TaskCategory.TROUBLESHOOTING

/-- `TroubleshootingPlugin.execute`: dispatch on the intent; an intent none
of the branches know yields a failed result, not an exception. -/
def trouble_execute (shell : String → ShellOutcome) (command : Command) : ExecutionResult :=
  if command.intent = "show_logs" then trouble_show_logs shell command
  else if command.intent = "restart_service" then trouble_restart_service shell command
  else if command.intent = "health_check" then trouble_health_check shell command
  else
    { success := false, output := "Unknown troubleshooting command",
      error := some ("Intent '" ++ command.intent ++ "' not supported") }

structure CorePlugin where
  canHandle : Command → Bool
  exec : Command → ExecutionResult

/-- The `for plugin in self.plugins` loop: first plugin whose `can_handle`
answers true executes the command. -/
def findAndRun : List CorePlugin → Command → Option ExecutionResult
  | [], _ => none
  | p :: ps, c => if p.canHandle c then some (p.exec c) else findAndRun ps c

/-- The plugin list registered by `DevOpsGPT.__init__`. -/
def defaultPlugins (shell : String → ShellOutcome) : List CorePlugin :=
  [⟨trouble_can_handle, trouble_execute shell⟩]

/-- The command object as seen by every pipeline stage after
`process_command` reassigns `command.dry_run` from the execution mode. -/
def commandInPipeline (input : List Char) (mode : ExecutionMode) : Command :=
  let command := parse input
  { command with dry_run := decide (mode = ExecutionMode.DRY_RUN) }

/-- Observable trace of one `process_command` call: the returned result and
the command values handed to the audit log, the handling plugin and the
session-context update. -/
structure PipelineTrace where
  result : ExecutionResult
  audited : Command
  handled : Option Command
  contextSeen : Option Command
  deriving Repr, DecidableEq

/-- `DevOpsGPT.process_command`: parse, overwrite `dry_run` from the mode,
audit, route to the first capable plugin, update context; with no capable
plugin, return the failed no-plugin result quoting the original input. -/
def process_command_traced (shell : String → ShellOutcome) (input : List Char)
    (mode : ExecutionMode) : PipelineTrace :=
  match findAndRun (defaultPlugins shell) (commandInPipeline input mode) with
  | some result =>
      { result := result, audited := commandInPipeline input mode,
        handled := some (commandInPipeline input mode),
        contextSeen := some (commandInPipeline input mode) }
  | none =>
      { result :=
          { success := false, output := "No plugin found to handle this command",
            error := some ("Unsupported command: " ++ String.mk input) },
        audited := commandInPipeline input mode, handled := none, contextSeen := none }

/-- The `ExecutionResult` returned to the caller of `process_command`. -/
def process_command (shell : String → ShellOutcome) (input : List Char)
    (mode : ExecutionMode) : ExecutionResult :=
  (process_command_traced shell input mode).result

/-! ## `StateManager` (`devops_gpt_state.py`)

`threading.Lock` is not reentrant: a thread that already holds the lock and
executes `with self._lock:` again blocks forever.  Single-threaded
executions that may block forever are modelled in `Option`: `none` means
the call never returns.  File creation times (`os.path.getctime`) are
modelled as strictly increasing naturals, so the backup directory is kept
as a list in creation order and sorting by creation time is the identity. -/

inductive StateChangeEvent where
  | CONTEXT_UPDATED
  | COMMAND_EXECUTED
  | SESSION_STARTED
  | SESSION_ENDED
  | ERROR_OCCURRED
  deriving Repr, DecidableEq

structure HistoryEntry where
  timestamp : String
  command : String
  success : Bool
  execution_time : ℚ
  deriving Repr, DecidableEq

/-- The `AgentState` dataclass, with its field defaults. -/
structure AgentState where
  current_context : String
  last_command : Option String
  environment : String
  session_start : String
  execution_history : List HistoryEntry := []
  active_services : List String := []
  resource_states : List (String × String) := []
  error_count : Nat := 0
  last_error : Option String := none
  successful_commands : Nat := 0
  failed_commands : Nat := 0
  total_execution_time : ℚ := 0
  plugin_states : List (String × List (String × String)) := []
  deriving Repr, DecidableEq

/-- `StateManager._create_initial_state`; `now` is
`datetime.now().isoformat()`. -/
def create_initial_state (now : String) : AgentState :=
  { current_context := "default", last_command := none,
    environment := "development", session_start := now }

/-- A file in the store's filesystem: either it holds JSON that parses into
an `AgentState`, or reading it raises (malformed JSON or mismatched
fields). -/
inductive FileData where
  | valid (s : AgentState)
  | invalid
  deriving Repr, DecidableEq

/-- The filesystem slice owned by a `StateManager`: the primary state file
(if present) and the backup directory in creation-time order. -/
structure StoreFS where
  primary : Option FileData
  backups : List (Nat × FileData)
  deriving Repr, DecidableEq

/-- `json.load` plus `AgentState.from_dict`, raising on invalid data. -/
def parseStateFile : FileData → Except Unit AgentState
  | FileData.valid s => Except.ok s
  | FileData.invalid => Except.error ()

/-- `StateManager._get_latest_backup`: backups sorted by creation time,
last one, or `None` when the directory is empty. -/
def get_latest_backup (fs : StoreFS) : Option (Nat × FileData) :=
  fs.backups.getLast?

/-- The body of the `try` block of `StateManager._load_state`. -/
def load_state_attempt (fs : StoreFS) (now : String) : Except Unit AgentState :=
  match fs.primary with
  | some f => parseStateFile f
  | none =>
      match get_latest_backup fs with
      | some (_, f) => parseStateFile f
      | none => Except.ok (create_initial_state now)

/-- `StateManager._load_state`: any exception inside the `try` block falls
through to `_create_initial_state`. -/
def load_state (fs : StoreFS) (now : String) : AgentState :=
  match load_state_attempt fs now with
  | Except.ok s => s
  | Except.error _ => create_initial_state now

/-- `StateManager._cleanup_old_backups`: unlink `backups[:-keep_last]`,
i.e. keep the `keep_last` most recently created files (`[:-0]` is the empty
slice in Python, so `keep_last = 0` deletes nothing). -/
def cleanup_old_backups (bs : List (Nat × FileData)) (keepLast : Nat) : List (Nat × FileData) :=
  if keepLast = 0 then bs else bs.drop (bs.length - keepLast)

/-- The non-reentrant `threading.Lock`, as seen by a single thread. -/
inductive PyLock where
  | free
  | held
  deriving Repr, DecidableEq

/-- In-memory manager state: the current `AgentState` plus its filesystem. -/
structure StateMgr where
  state : AgentState
  fs : StoreFS
  deriving Repr, DecidableEq

/-- `StateManager.save_state` at backup timestamp `t`: under `with
self._lock`, write the primary file, write a timestamped backup, prune the
backups keeping the last 5.  Attempting this while the calling thread
already holds the lock blocks forever (`none`). -/
def save_state (lk : PyLock) (m : StateMgr) (t : Nat) : Option StateMgr :=
  match lk with
  | PyLock.held => none
  | PyLock.free =>
      some { m with
        fs := { primary := some (FileData.valid m.state),
                backups := cleanup_old_backups
                  (m.fs.backups ++ [(t, FileData.valid m.state)]) 5 } }

/-- `StateManager.update_context`: acquire the lock, mutate, then call
`save_state` (which re-acquires the same non-reentrant lock), then notify
observers. -/
def update_context (lk : PyLock) (m : StateMgr) (context : String) (t : Nat) :
    Option (StateMgr × List StateChangeEvent) :=
  match lk with
  | PyLock.held => none
  | PyLock.free =>
      let m1 := { m with state := { m.state with current_context := context } }
      match save_state PyLock.held m1 t with
      | none => none
      | some m2 => some (m2, [StateChangeEvent.CONTEXT_UPDATED])

/-- `StateManager.record_command`. -/
def record_command (lk : PyLock) (m : StateMgr) (command : String) (success : Bool)
    (execution_time : ℚ) (now : String) (t : Nat) :
    Option (StateMgr × List StateChangeEvent) :=
  match lk with
  | PyLock.held => none
  | PyLock.free =>
      let st := m.state
      let st := { st with last_command := some command,
                          total_execution_time := st.total_execution_time + execution_time }
      let st :=
        if success then { st with successful_commands := st.successful_commands + 1 }
        else { st with failed_commands := st.failed_commands + 1 }
      let st := { st with execution_history :=
        st.execution_history ++ [⟨now, command, success, execution_time⟩] }
      match save_state PyLock.held { m with state := st } t with
      | none => none
      | some m2 => some (m2, [StateChangeEvent.COMMAND_EXECUTED])

/-- `StateManager.record_error`. -/
def record_error (lk : PyLock) (m : StateMgr) (error : String) (t : Nat) :
    Option (StateMgr × List StateChangeEvent) :=
  match lk with
  | PyLock.held => none
  | PyLock.free =>
      let m1 := { m with state := { m.state with
        error_count := m.state.error_count + 1, last_error := some error } }
      match save_state PyLock.held m1 t with
      | none => none
      | some m2 => some (m2, [StateChangeEvent.ERROR_OCCURRED])

/-- Python dict assignment `d[k] = v` on an insertion-ordered association
list: overwrite the existing key in place, else append. -/
def dictSet {α : Type} (l : List (String × α)) (k : String) (v : α) : List (String × α) :=
  if (l.lookup k).isSome then l.map (fun p => if p.1 = k then (k, v) else p)
  else l ++ [(k, v)]

/-- `StateManager.update_plugin_state` (it notifies no observers). -/
def update_plugin_state (lk : PyLock) (m : StateMgr) (plugin_name : String)
    (state_data : List (String × String)) (t : Nat) :
    Option (StateMgr × List StateChangeEvent) :=
  match lk with
  | PyLock.held => none
  | PyLock.free =>
      let m1 := { m with state := { m.state with
        plugin_states := dictSet m.state.plugin_states plugin_name state_data } }
      match save_state PyLock.held m1 t with
      | none => none
      | some m2 => some (m2, [])

/-- A sequence of direct `save_state` calls (each starting with the lock
free), the i-th one saving state `sᵢ` at creation time `tᵢ`. -/
def runSaves (m0 : StateMgr) (saves : List (Nat × AgentState)) : Option StateMgr :=
  saves.foldlM (fun m ts => save_state PyLock.free { m with state := ts.2 } ts.1) m0

/-! ## Model provider chain

`OllamaProvider` (`devops_gpt/llm_providers/ollama_provider.py`): the
primary HTTP call either raises in transport, or yields a status code and a
body; the body either fails JSON decoding, decodes but lacks the
`"response"` key, or carries a response text.  The optional OpenAI fallback
is an external call whose behaviour is a function from the invocation index
to an outcome; every embedded operation additionally returns how many times
the fallback provider was invoked. -/

inductive PyErr where
  | err (msg : String)
  deriving Repr, DecidableEq

def strOfErr : PyErr → String
  | PyErr.err m => m

inductive OllamaBody where
  | malformedJson
  | missingResponseKey
  | withResponse (text : String)
  deriving Repr, DecidableEq

inductive PrimaryOutcome where
  | transportError (e : PyErr)
  | httpResponse (status : Nat) (body : OllamaBody)
  deriving Repr, DecidableEq

/-- `OllamaProvider._make_request`: POST to `/api/generate`; on a non-200
status, delegate to the fallback when one is configured, else raise; on a
200, raise unless the JSON body has a `"response"` key. -/
def ollama_make_request (fallback : Bool) (prim : PrimaryOutcome)
    (sec : Nat → Except PyErr String) : Except PyErr String × Nat :=
  match prim with
  | PrimaryOutcome.transportError e => (Except.error e, 0)
  | PrimaryOutcome.httpResponse status body =>
      if status ≠ 200 then
        if fallback then
          match sec 0 with
          | Except.ok r => (Except.ok r, 1)
          | Except.error e => (Except.error e, 1)
        else (Except.error (PyErr.err "Ollama API error"), 0)
      else
        match body with
        | OllamaBody.malformedJson => (Except.error (PyErr.err "json decode failed"), 0)
        | OllamaBody.missingResponseKey =>
            (Except.error (PyErr.err "Unexpected response format"), 0)
        | OllamaBody.withResponse t => (Except.ok t, 0)

/-- `OllamaProvider.generate_response`: call `_make_request`; on any
exception, delegate to the fallback when one is configured, else re-raise. -/
def ollama_generate_response (fallback : Bool) (prim : PrimaryOutcome)
    (sec : Nat → Except PyErr String) : Except PyErr String × Nat :=
  match ollama_make_request fallback prim sec with
  | (Except.ok r, n) => (Except.ok r, n)
  | (Except.error e, n) =>
      if fallback then
        match sec n with
        | Except.ok r => (Except.ok r, n + 1)
        | Except.error e2 => (Except.error e2, n + 1)
      else (Except.error e, n)

/-- A provider as the `FallbackLLMProvider` composite sees one: a
`generate_response` behaviour and a `get_name()` value. -/
structure ProviderM where
  gen : String → Option Nat → Except PyErr String
  name : String

/-- `FallbackLLMProvider` (`devops_gpt/llm_providers/__init__.py`): try the
primary; on any exception call the secondary with the identical prompt;
`get_name` is the primary's name, a plus sign, the secondary's name. -/
def fallbackProvider (primary secondary : ProviderM) : ProviderM :=
  { gen := fun prompt max_tokens =>
      match primary.gen prompt max_tokens with
      | Except.ok r => Except.ok r
      | Except.error _ => secondary.gen prompt max_tokens,
    name := primary.name ++ "+" ++ secondary.name }

/-! ## The agent (`devops_gpt/core/agent.py`)

`_parse_command` hands the provider's text to Python `eval`, so a response
is modelled by what its text denotes as a Python expression: a literal
value, an expression that performs a side effect and continues, or one that
raises.  Evaluation returns the list of side effects performed, in order,
alongside the value or exception. -/

inductive PyValue where
  | str (s : String)
  | int (n : Int)
  | dict (entries : List (String × PyValue))

inductive PyExpr where
  | lit (v : PyValue)
  | effect (action : String) (rest : PyExpr)
  | raised (msg : String)

/-- Python `eval` on the expression a response text denotes. -/
def evalPy : PyExpr → List String × Except PyErr PyValue
  | PyExpr.lit v => ([], Except.ok v)
  | PyExpr.effect a rest => let (es, r) := evalPy rest; (a :: es, r)
  | PyExpr.raised m => ([], Except.error (PyErr.err m))

/-- What the provider chain handed back to `_parse_command`: nothing truthy,
a text that is not a Python expression at all, or a text denoting the
expression `e`. -/
inductive LLMResp where
  | empty
  | unparseableText (raw : String)
  | code (raw : String) (e : PyExpr)

/-- `DevOpsGPT._parse_command` on a given provider outcome: a falsy
response raises `ValueError`; otherwise the text is `eval`-uated, any
side effects of the expression being performed, and an `eval` failure is
re-raised as `ValueError`.  Returns the side effects performed and the
value or exception. -/
def agent_parse_command (resp : Except PyErr LLMResp) :
    List String × Except PyErr PyValue :=
  match resp with
  | Except.error e => ([], Except.error e)
  | Except.ok LLMResp.empty => ([], Except.error (PyErr.err "No response from LLM provider"))
  | Except.ok (LLMResp.unparseableText raw) =>
      ([], Except.error (PyErr.err ("Invalid response format: " ++ raw)))
  | Except.ok (LLMResp.code raw e) =>
      match evalPy e with
      | (effs, Except.ok v) => (effs, Except.ok v)
      | (effs, Except.error _) =>
          (effs, Except.error (PyErr.err ("Invalid response format: " ++ raw)))

/-- The dict `execute_command` returns (plugin result dicts carry at least a
`success` flag, as every plugin under `devops_gpt/plugins/` does). -/
structure AgentResult where
  success : Bool
  output : Option String := none
  error : Option String := none
  command : Option String := none
  deriving Repr, DecidableEq

/-- A registered agent plugin's `execute`, which may raise. -/
structure AgentPlugin where
  exec : PyValue → Bool → Except PyErr AgentResult

/-- `DevOpsGPT.execute_command`: parse via the provider, check the security
policy, route by category, execute the plugin and stamp the original
command text into the result; the enclosing `try` converts any exception
into a failed dict.  `resp` is the provider-chain behaviour for this call,
`allowed` is `_is_action_allowed` under the loaded config, and `findPlugin`
is `_get_plugin_for_intent` over the loaded registry. -/
def execute_command_try (resp : Except PyErr LLMResp) (allowed : PyValue → Bool)
    (findPlugin : PyValue → Option AgentPlugin) (command : String) (dry_run : Bool) :
    Except PyErr AgentResult := do
  let intent ← (agent_parse_command resp).2
  if ¬ allowed intent then
    pure { success := false, error := some "Action not allowed by security policy" }
  else
    match findPlugin intent with
    | none => pure { success := false, error := some "No plugin found to handle this command" }
    | some plugin => do
        let r ← plugin.exec intent dry_run
        pure { r with command := some command }

/-- The full `execute_command` including its `except Exception` clause.  The
result type keeps the fault channel: `Except.error` would mean an unhandled
exception propagating to the caller. -/
def execute_command (resp : Except PyErr LLMResp) (allowed : PyValue → Bool)
    (findPlugin : PyValue → Option AgentPlugin) (command : String) (dry_run : Bool) :
    Except PyErr AgentResult :=
  match execute_command_try resp allowed findPlugin command dry_run with
  | Except.ok r => Except.ok r
  | Except.error e =>
      Except.ok { success := false, command := some command, error := some (strOfErr e) }

/-! ## Theorems -/

/-- Claim C10: every command returned by `parse` has `dry_run = true` —
set explicitly on the pattern-match path and by field default on the
fallback path. -/
theorem claim_C10_parse_always_dry_run (input : List Char) :
    (parse input).dry_run = true := by
  simp only [parse]
  split <;> rfl

/-- Claim C5: evaluating `parse` on `"show logs from frontend"` yields
intent `show_logs`, category troubleshooting and confidence 0.8 as claimed,
but the captured `service` parameter is `"d"`, not `"frontend"`: the greedy
`.*` before `(?P<service>\w+)` consumes `"fronten"`.  This contradicts the
claim and the repository's own test, which asserts
`command.parameters.get("service") == "frontend"`. -/
theorem claim_C5_show_logs_parse_eval :
    parse "show logs from frontend".toList =
      { intent := "show_logs", category := TaskCategory.TROUBLESHOOTING,
        parameters := [("service", "d")],
        raw_input := "show logs from frontend".toList,
        confidence := (8 : ℚ) / 10, dry_run := true } ∧
    [(("service" : String), ("d" : String))] ≠ [("service", "frontend")] := by
  exact ⟨rfl, by decide⟩

/-- Claim C9 (counterexample): `process_command` mutates the parsed
command's `dry_run` field after `parse` returns it — with execution mode
`EXECUTE`, every stage observes `dry_run = false` although `parse` returned
`dry_run = true`. -/
theorem claim_C9_counterexample_dry_run_mutated :
    (process_command_traced (fun _ => ShellOutcome.completed 0 "" "")
        "restart frontend".toList ExecutionMode.EXECUTE).audited.dry_run = false ∧
    (parse "restart frontend".toList).dry_run = true := by
  exact ⟨by decide, by decide⟩

/-- Claim C9 as amended: after `parse`, the only mutation of the command is
`process_command` overwriting `dry_run` from the execution mode, before any
stage runs; the audit log, the handling plugin and the context update all
observe that single value, which agrees with the parsed command on every
field other than `dry_run`. -/
theorem claim_C9_amended_frame (shell : String → ShellOutcome) (input : List Char)
    (mode : ExecutionMode) :
    (process_command_traced shell input mode).audited =
      { parse input with dry_run := decide (mode = ExecutionMode.DRY_RUN) } ∧
    ((process_command_traced shell input mode).handled = none ∨
      (process_command_traced shell input mode).handled =
        some (process_command_traced shell input mode).audited) ∧
    (process_command_traced shell input mode).contextSeen =
      (process_command_traced shell input mode).handled ∧
    (process_command_traced shell input mode).audited.intent = (parse input).intent ∧
    (process_command_traced shell input mode).audited.category = (parse input).category ∧
    (process_command_traced shell input mode).audited.parameters = (parse input).parameters ∧
    (process_command_traced shell input mode).audited.raw_input = (parse input).raw_input ∧
    (process_command_traced shell input mode).audited.confidence = (parse input).confidence := by
  rcases h : findAndRun (defaultPlugins shell) (commandInPipeline input mode) with _ | r <;>
    · simp only [process_command_traced, h]
      simp [commandInPipeline]

/-- Claim C2: every State Store mutating operation self-deadlocks instead
of returning.  Each of `update_context`, `record_command`, `record_error`
and `update_plugin_state` acquires the non-reentrant `threading.Lock` and
then calls `save_state`, which acquires the same lock again, so even when
called with the lock free none of them ever completes (`none` = the call
never returns; no persistence, pruning or observer notification happens). -/
theorem claim_C2_state_mutators_never_return (m : StateMgr) (context command error pname : String)
    (success : Bool) (execution_time : ℚ) (now : String) (t : Nat)
    (pdata : List (String × String)) :
    update_context PyLock.free m context t = none ∧
    record_command PyLock.free m command success execution_time now t = none ∧
    record_error PyLock.free m error t = none ∧
    update_plugin_state PyLock.free m pname pdata t = none := by
  exact ⟨rfl, rfl, rfl, rfl⟩

/-- Claim C1: `_parse_command` passes the provider's text to Python `eval`,
so a response that denotes a side-effecting expression has its effects
executed, and an evaluated value is accepted without any schema validation
(here a bare string, not even an object of the declared schema). -/
theorem claim_C1_parse_command_evaluates_model_output :
    (agent_parse_command (Except.ok (LLMResp.code "__import__ payload"
        (PyExpr.effect "os.system" (PyExpr.lit (PyValue.dict [])))))).1 = ["os.system"] ∧
    (agent_parse_command (Except.ok (LLMResp.code "not a dict"
        (PyExpr.lit (PyValue.str "not a dict"))))).2 = Except.ok (PyValue.str "not a dict") := by
  exact ⟨rfl, rfl⟩

/-- Startup recovery as the code actually behaves (the amended claim C3):
a present and parsable primary wins; with no primary file, the most
recently created backup is tried; an unparsable primary — or an unparsable
chosen backup, or nothing at all — yields a fresh initial state.  This
definition follows the amended wording and is compared against the
embedding `load_state` of `StateManager._load_state`. -/
def load_state_amended_spec (fs : StoreFS) (now : String) : AgentState :=
  match fs.primary with
  | some (FileData.valid s) => s
  | some FileData.invalid => create_initial_state now
  | none =>
      match fs.backups.getLast? with
      | some (_, FileData.valid s) => s
      | _ => create_initial_state now

/-- Claim C3 (counterexample): with an unparsable primary file and an
existing valid backup, `_load_state` returns a fresh initial state, not the
backup's state — the `except` clause catches the primary parse failure and
skips the backup fallback entirely. -/
theorem claim_C3_counterexample_unparsable_primary_ignores_backup :
    load_state
      { primary := some FileData.invalid,
        backups := [(1, FileData.valid
          { current_context := "production", last_command := some "restart frontend",
            environment := "production", session_start := "2026-01-01T00:00:00" })] }
      "2026-02-02T12:00:00"
      = create_initial_state "2026-02-02T12:00:00" ∧
    create_initial_state "2026-02-02T12:00:00" ≠
      { current_context := "production", last_command := some "restart frontend",
        environment := "production", session_start := "2026-01-01T00:00:00" } := by
  exact ⟨rfl, by decide⟩

/-- Claim C3 as amended: startup recovery loads the primary file when it is
present and parsable; only when the primary is absent does it fall back to
the most recently created backup; an unparsable primary (even with a valid
backup available), an unparsable chosen backup, or no file at all yields a
fresh `AgentState` with `session_start` set to the current time and all
counters zeroed. -/
theorem claim_C3_amended_recovery_characterization (fs : StoreFS) (now : String) :
    load_state fs now = load_state_amended_spec fs now := by
  unfold load_state load_state_attempt load_state_amended_spec get_latest_backup parseStateFile
  rcases fs.primary with _ | f
  · rcases h : fs.backups.getLast? with _ | ⟨t, g⟩
    · rfl
    · rcases g with s | _ <;> rfl
  · rcases f with s | _ <;> rfl

/-- Claim C8: the `FallbackLLMProvider` composite, given a primary that
always fails and a secondary that succeeds on the given prompt, returns
exactly the secondary's output, and its `get_name()` is the primary's name,
`"+"`, the secondary's name. -/
theorem claim_C8_fallback_returns_secondary (p s : ProviderM) (prompt : String)
    (max_tokens : Option Nat) (out : String)
    (hp : ∀ pr m, ∃ e, p.gen pr m = Except.error e)
    (hs : s.gen prompt max_tokens = Except.ok out) :
    (fallbackProvider p s).gen prompt max_tokens = Except.ok out ∧
    (fallbackProvider p s).name = p.name ++ "+" ++ s.name := by
  obtain ⟨e, he⟩ := hp prompt max_tokens
  refine ⟨?_, rfl⟩
  simp [fallbackProvider, he, hs]

/-- Witness for C8 at a concrete always-failing primary named `"ollama"`
and a constantly succeeding secondary named `"openai"`. -/
theorem claim_C8_witness :
    (fallbackProvider ⟨fun _ _ => Except.error (PyErr.err "connection refused"), "ollama"⟩
        ⟨fun _ _ => Except.ok "parsed intent", "openai"⟩).gen "show logs" none =
      Except.ok "parsed intent" ∧
    (fallbackProvider ⟨fun _ _ => Except.error (PyErr.err "connection refused"), "ollama"⟩
        ⟨fun _ _ => Except.ok "parsed intent", "openai"⟩).name = "ollama+openai" := by
  have h := claim_C8_fallback_returns_secondary
    ⟨fun _ _ => Except.error (PyErr.err "connection refused"), "ollama"⟩
    ⟨fun _ _ => Except.ok "parsed intent", "openai"⟩
    "show logs" none "parsed intent"
    (fun _ _ => ⟨PyErr.err "connection refused", rfl⟩) rfl
  exact ⟨h.1, h.2⟩

/-- Claim C4 (counterexample): the secondary provider can be invoked twice
in a single `generate_response` call.  When the primary answers with a
non-success status and the fallback is enabled, `_make_request` invokes the
secondary; if that invocation raises, the exception propagates into
`generate_response`'s `except` clause, which invokes the secondary a second
time. -/
theorem claim_C4_counterexample_secondary_invoked_twice :
    ¬ ((ollama_generate_response true
          (PrimaryOutcome.httpResponse 500 (OllamaBody.withResponse "unused"))
          (fun _ => Except.error (PyErr.err "openai quota exceeded"))).2 ≤ 1) := by
  decide

/-- Claim C4 as amended: per `generate_response` call the secondary is
invoked at most twice, never more; and a second invocation happens only
when the fallback is enabled, the primary returned a non-success HTTP
status, and the secondary's own first invocation failed.  (The secondary
itself is a bare provider call with no further fallback, so there is still
no chain of hops beyond it.) -/
theorem claim_C4_amended_fallback_invocation_bound (fallback : Bool)
    (prim : PrimaryOutcome) (sec : Nat → Except PyErr String) :
    (ollama_generate_response fallback prim sec).2 ≤ 2 ∧
    ((ollama_generate_response fallback prim sec).2 = 2 →
      fallback = true ∧ ∃ status body e, prim = PrimaryOutcome.httpResponse status body ∧
        status ≠ 200 ∧ sec 0 = Except.error e) := by
  rcases prim with e | ⟨status, body⟩
  · simp only [ollama_generate_response, ollama_make_request]
    rcases fallback with _ | _
    · simp
    · rcases h0 : sec 0 with e0 | r0 <;> simp [h0]
  · by_cases hs : status = 200
    · subst hs
      simp only [ollama_generate_response, ollama_make_request, if_neg (by decide : ¬ ((200 : Nat) ≠ 200))]
      rcases body with _ | _ | t
      · rcases fallback with _ | _
        · simp
        · rcases h0 : sec 0 with e0 | r0 <;> simp [h0]
      · rcases fallback with _ | _
        · simp
        · rcases h0 : sec 0 with e0 | r0 <;> simp [h0]
      · simp
    · simp only [ollama_generate_response, ollama_make_request, if_pos hs]
      rcases fallback with _ | _
      · simp
      · rcases h0 : sec 0 with e0 | r0
        · rcases h1 : sec 1 with e1 | r1 <;>
            simp [h0, h1, hs]
        · simp [h0]

/-- Witness for C4's amended bound at the concrete double-invocation
scenario: the count is 2, and the theorem's implication then exhibits the
500 status and the failed first secondary call. -/
theorem claim_C4_amended_witness :
    (ollama_generate_response true
        (PrimaryOutcome.httpResponse 500 (OllamaBody.withResponse "unused"))
        (fun _ => Except.error (PyErr.err "openai quota exceeded"))).2 ≤ 2 ∧
    (true = true ∧ ∃ status body e,
      PrimaryOutcome.httpResponse 500 (OllamaBody.withResponse "unused") =
        PrimaryOutcome.httpResponse status body ∧ status ≠ 200 ∧
      (Except.error (PyErr.err "openai quota exceeded") : Except PyErr String) =
        Except.error e) := by
  have h := claim_C4_amended_fallback_invocation_bound true
    (PrimaryOutcome.httpResponse 500 (OllamaBody.withResponse "unused"))
    (fun _ => Except.error (PyErr.err "openai quota exceeded"))
  exact ⟨h.1, h.2 rfl⟩

/-- Claim C6: commands always come back as structured results.  On the
agent path, for every provider-chain behaviour and every plugin behaviour
(including raising), `execute_command` returns `Except.ok` of a result
dict — never a propagating fault — and parse failures and the no-plugin
outcome come back as `success = false` with a descriptive error.  On the
core path, an input matching no pattern routes the fallback `"unknown"`
command to the troubleshooting plugin, which reports a failed result, and
a command whose category no registered plugin handles yields the failed
no-plugin result. -/
theorem claim_C6_structured_outcomes :
    (∀ (resp : Except PyErr LLMResp) (allowed : PyValue → Bool)
        (findPlugin : PyValue → Option AgentPlugin) (cmd : String) (dry : Bool),
      ∃ r, execute_command resp allowed findPlugin cmd dry = Except.ok r) ∧
    (∀ (resp : Except PyErr LLMResp) (allowed : PyValue → Bool)
        (findPlugin : PyValue → Option AgentPlugin) (cmd : String) (dry : Bool) (e : PyErr),
      (agent_parse_command resp).2 = Except.error e →
      execute_command resp allowed findPlugin cmd dry =
        Except.ok { success := false, command := some cmd, error := some (strOfErr e) }) ∧
    (∀ (resp : Except PyErr LLMResp) (allowed : PyValue → Bool)
        (findPlugin : PyValue → Option AgentPlugin) (cmd : String) (dry : Bool) (v : PyValue),
      (agent_parse_command resp).2 = Except.ok v → allowed v = true → findPlugin v = none →
      execute_command resp allowed findPlugin cmd dry =
        Except.ok { success := false, error := some "No plugin found to handle this command" }) ∧
    (∀ (shell : String → ShellOutcome) (input : List Char) (mode : ExecutionMode),
      intent_patterns.findSome?
          (fun p => (reSearch p.1 (pyLower (pyStrip input))).map fun caps => (p.2, caps)) = none →
      process_command shell input mode =
        { success := false, output := "Unknown troubleshooting command",
          error := some "Intent 'unknown' not supported" }) ∧
    (∀ (shell : String → ShellOutcome) (input : List Char) (mode : ExecutionMode),
      (parse input).category ≠ TaskCategory.TROUBLESHOOTING →
      process_command shell input mode =
        { success := false, output := "No plugin found to handle this command",
          error := some ("Unsupported command: " ++ String.mk input) }) := by
  refine ⟨?_, ?_, ?_, ?_, ?_⟩
  · intro resp allowed findPlugin cmd dry
    unfold execute_command
    cases h : execute_command_try resp allowed findPlugin cmd dry with
    | ok r => exact ⟨r, rfl⟩
    | error e => exact ⟨_, rfl⟩
  · intro resp allowed findPlugin cmd dry e h
    have ht : execute_command_try resp allowed findPlugin cmd dry = Except.error e := by
      unfold execute_command_try
      rw [h]
      rfl
    unfold execute_command
    rw [ht]
  · intro resp allowed findPlugin cmd dry v h hallow hfp
    have ht : execute_command_try resp allowed findPlugin cmd dry =
        Except.ok { success := false, error := some "No plugin found to handle this command" } := by
      unfold execute_command_try
      rw [h]
      show (if ¬ allowed v = true then _ else _ : Except PyErr AgentResult) = _
      rw [hallow]
      simp only [not_true_eq_false, if_false, hfp]
      rfl
    unfold execute_command
    rw [ht]
  · intro shell input mode h
    simp only [process_command, process_command_traced, commandInPipeline, parse, h]
    rfl
  · intro shell input mode h
    have hc : trouble_can_handle (commandInPipeline input mode) = false := by
      simp only [trouble_can_handle, commandInPipeline, decide_eq_false_iff_not]
      exact h
    simp only [process_command, process_command_traced, findAndRun, defaultPlugins, hc,
      Bool.false_eq_true, if_false]

/-- Witness for C6 at concrete behaviours: a raising provider chain on the
agent path, and the inputs `"please do the thing"` (no pattern match) and
`"trigger deploy pipeline"` (CICD category, no registered handler) on the
core path. -/
theorem claim_C6_witness :
    (∃ r, execute_command (Except.error (PyErr.err "timeout")) (fun _ => true)
        (fun _ => none) "deploy frontend" true = Except.ok r) ∧
    execute_command (Except.error (PyErr.err "timeout")) (fun _ => true)
        (fun _ => none) "deploy frontend" true =
      Except.ok { success := false, command := some "deploy frontend",
                  error := some (strOfErr (PyErr.err "timeout")) } ∧
    process_command (fun _ => ShellOutcome.completed 0 "" "") "please do the thing".toList
        ExecutionMode.DRY_RUN =
      { success := false, output := "Unknown troubleshooting command",
        error := some "Intent 'unknown' not supported" } ∧
    process_command (fun _ => ShellOutcome.completed 0 "" "") "trigger deploy pipeline".toList
        ExecutionMode.DRY_RUN =
      { success := false, output := "No plugin found to handle this command",
        error := some ("Unsupported command: " ++ String.mk "trigger deploy pipeline".toList) } := by
  refine ⟨claim_C6_structured_outcomes.1 _ _ _ _ _,
    claim_C6_structured_outcomes.2.1 _ _ _ _ _ _ rfl,
    claim_C6_structured_outcomes.2.2.2.1 _ _ _ rfl,
    claim_C6_structured_outcomes.2.2.2.2 _ _ _ (by decide)⟩

/-! Helper lemmas for backup-retention reasoning (claim C7). -/

/-- The suffix of the last `n` elements. -/
def takeLast {α : Type} (n : Nat) (l : List α) : List α :=
  l.drop (l.length - n)

theorem cleanup_old_backups_eq_takeLast (bs : List (Nat × FileData)) :
    cleanup_old_backups bs 5 = takeLast 5 bs := by
  simp [cleanup_old_backups, takeLast]

theorem length_takeLast_le {α : Type} (n : Nat) (l : List α) :
    (takeLast n l).length ≤ n := by
  simp only [takeLast, List.length_drop]
  omega

theorem takeLast_of_length_le {α : Type} {n : Nat} {l : List α} (h : l.length ≤ n) :
    takeLast n l = l := by
  simp [takeLast, Nat.sub_eq_zero_of_le h]

/-- Pruning to the last `n`, appending more, and pruning again is the same
as pruning the whole sequence at the end. -/
theorem takeLast_append_takeLast {α : Type} (n : Nat) (a b : List α) :
    takeLast n (takeLast n a ++ b) = takeLast n (a ++ b) := by
  unfold takeLast
  rw [← List.drop_append_of_le_length (Nat.sub_le a.length n), List.drop_drop]
  congr 1
  simp only [List.length_append, List.length_drop]
  omega

/-- Running a sequence of saves from a manager whose backup directory is
within the cap always completes, and leaves exactly the last five backup
entries of the full (old ++ newly written) sequence. -/
theorem runSaves_spec (saves : List (Nat × AgentState)) :
    ∀ m : StateMgr, m.fs.backups.length ≤ 5 →
    ∃ m', runSaves m saves = some m' ∧
      m'.fs.backups =
        takeLast 5 (m.fs.backups ++ saves.map (fun ts => (ts.1, FileData.valid ts.2))) := by
  induction saves with
  | nil =>
      intro m h
      refine ⟨m, rfl, ?_⟩
      rw [List.map_nil, List.append_nil, takeLast_of_length_le h]
  | cons ts rest ih =>
      intro m h
      have hstep : save_state PyLock.free { m with state := ts.2 } ts.1 =
          some { state := ts.2,
                 fs := { primary := some (FileData.valid ts.2),
                         backups := takeLast 5 (m.fs.backups ++ [(ts.1, FileData.valid ts.2)]) } } := by
        simp [save_state, cleanup_old_backups_eq_takeLast]
      obtain ⟨m', hrun, hb⟩ := ih
        { state := ts.2,
          fs := { primary := some (FileData.valid ts.2),
                  backups := takeLast 5 (m.fs.backups ++ [(ts.1, FileData.valid ts.2)]) } }
        (length_takeLast_le 5 _)
      refine ⟨m', ?_, ?_⟩
      · simp only [runSaves, List.foldlM_cons, hstep, Option.bind_eq_bind, Option.some_bind]
        exact hrun
      · rw [hb]
        simp only [takeLast_append_takeLast, List.map_cons, List.append_assoc,
          List.singleton_append]

/-- Claim C7: starting from an empty backup directory, after `5 + k` saves
(with strictly increasing file-creation timestamps, so each save creates a
distinct backup file) the run completes, exactly 5 backup files exist, they
are the ones written by the 5 most recent saves, and after every
intermediate save the retained-backup count never exceeds the cap of 5. -/
theorem claim_C7_backup_retention (m0 : StateMgr) (saves : List (Nat × AgentState)) (k : Nat)
    (hempty : m0.fs.backups = [])
    (hinc : List.Chain' (fun a b => a.1 < b.1) saves)
    (hlen : saves.length = 5 + k) :
    ∃ m', runSaves m0 saves = some m' ∧
      m'.fs.backups = (saves.map (fun ts => (ts.1, FileData.valid ts.2))).drop k ∧
      m'.fs.backups.length = 5 ∧
      (∀ i, ∃ mi, runSaves m0 (saves.take i) = some mi ∧ mi.fs.backups.length ≤ 5) := by
  obtain ⟨m', hrun, hb⟩ := runSaves_spec saves m0 (by rw [hempty]; simp)
  have hb' : m'.fs.backups = (saves.map (fun ts => (ts.1, FileData.valid ts.2))).drop k := by
    rw [hb, hempty, List.nil_append]
    unfold takeLast
    congr 1
    simp [hlen]
  refine ⟨m', hrun, hb', ?_, ?_⟩
  · rw [hb']
    simp [hlen]
  · intro i
    obtain ⟨mi, hi, hbi⟩ := runSaves_spec (saves.take i) m0 (by rw [hempty]; simp)
    exact ⟨mi, hi, by rw [hbi]; exact length_takeLast_le 5 _⟩

/-- Witness for C7: seven concrete saves against a fresh store leave
exactly the backups of saves 3..7. -/
theorem claim_C7_witness :
    ∃ m', runSaves ⟨create_initial_state "2026-01-01T00:00:00", ⟨none, []⟩⟩
        [(1, create_initial_state "2026-01-01T00:00:00"),
         (2, create_initial_state "2026-01-01T00:00:00"),
         (3, create_initial_state "2026-01-01T00:00:00"),
         (4, create_initial_state "2026-01-01T00:00:00"),
         (5, create_initial_state "2026-01-01T00:00:00"),
         (6, create_initial_state "2026-01-01T00:00:00"),
         (7, create_initial_state "2026-01-01T00:00:00")] = some m' ∧
      m'.fs.backups =
        ([(1, create_initial_state "2026-01-01T00:00:00"),
          (2, create_initial_state "2026-01-01T00:00:00"),
          (3, create_initial_state "2026-01-01T00:00:00"),
          (4, create_initial_state "2026-01-01T00:00:00"),
          (5, create_initial_state "2026-01-01T00:00:00"),
          (6, create_initial_state "2026-01-01T00:00:00"),
          (7, create_initial_state "2026-01-01T00:00:00")].map
            (fun ts => (ts.1, FileData.valid ts.2))).drop 2 ∧
      m'.fs.backups.length = 5 ∧
      (∀ i, ∃ mi, runSaves ⟨create_initial_state "2026-01-01T00:00:00", ⟨none, []⟩⟩
          ([(1, create_initial_state "2026-01-01T00:00:00"),
            (2, create_initial_state "2026-01-01T00:00:00"),
            (3, create_initial_state "2026-01-01T00:00:00"),
            (4, create_initial_state "2026-01-01T00:00:00"),
            (5, create_initial_state "2026-01-01T00:00:00"),
            (6, create_initial_state "2026-01-01T00:00:00"),
            (7, create_initial_state "2026-01-01T00:00:00")].take i) = some mi ∧
          mi.fs.backups.length ≤ 5) :=
  claim_C7_backup_retention _ _ 2 rfl (by simp) rfl

end DevOpsGPT
